import Mathlib

/-!
Verification of the fake-job-detection risk scoring engine.

This file gives a shallow embedding, in Lean 4, of the scoring core of the
repository: `utils/red_flags.py` (`count_red_flags`), `utils/domain_check.py`
(`is_suspicious_domain`), `src/feature_extractor.py` (`FeatureExtractor`) and
`src/analyzer.py` (`JobAnalyzer._analyze_job_data`, `_fast_prediction`,
`_assess_severity`, `_assess_job_quality`), and proves properties of the
embedded functions.

Conventions of the embedding:
* Python `str` becomes `String`; scanning-level code works on `List Char`.
* Python floats become `ℚ` (the numeric literals of the source are exact
  decimals, and every comparison proved here is far from any rounding
  boundary of binary floating point).
* Python `int(x)` on a nonnegative float is truncation, embedded as `pyInt`.
* Python dicts that are built once and read by key become association lists
  `List (String × _)` in insertion order, matching dict iteration order.
* The external sentiment library (TextBlob) and the WHOIS-based
  `analyze_domain_complete` perform I/O or depend on a bundled corpus; they
  enter the embedding as function parameters (`SentimentOracle`,
  `DomainOracle`), and every theorem quantifies over them.
-/

/-- Python whitespace for `\s` and `str.split()` (ASCII range, which covers
all inputs considered here). -/
def pyIsSpace (c : Char) : Bool :=
  c = ' ' ∨ c = '\t' ∨ c = '\n' ∨ c = '\x0d' ∨ c = '\x0b' ∨ c = '\x0c'

/-- Python `\w`: alphanumeric or underscore (ASCII range). -/
def pyIsWord (c : Char) : Bool :=
  c.isAlphanum ∨ c = '_'

/-- ASCII lowercasing of a character, as Python `str.lower` acts on the
ASCII inputs used here. -/
def pyCharLower (c : Char) : Char := c.toLower

/-- Python `str.lower()` on the character list. -/
def pyLowerL (cs : List Char) : List Char := cs.map pyCharLower

/-- Python `str.lower()`. -/
def pyLower (s : String) : String := ⟨pyLowerL s.data⟩

/-- Prefix test on character lists. -/
def startsWithL : List Char → List Char → Bool
  | [], _ => true
  | _ :: _, [] => false
  | a :: as, b :: bs => a = b && startsWithL as bs

/-- Python `needle in haystack` on character lists (substring containment). -/
def containsSub (needle : List Char) : List Char → Bool
  | [] => needle.isEmpty
  | c :: rest => startsWithL needle (c :: rest) || containsSub needle rest

/-- Python `needle in haystack` for strings. -/
def pyInStr (needle hay : String) : Bool := containsSub needle.data hay.data

/-- Python `str.split()` with no argument: split on whitespace runs,
dropping empty pieces. -/
def splitWsGo : List Char → List Char → List (List Char)
  | [], cur => if cur.isEmpty then [] else [cur.reverse]
  | c :: cs, cur =>
    if pyIsSpace c then
      if cur.isEmpty then splitWsGo cs [] else cur.reverse :: splitWsGo cs []
    else
      splitWsGo cs (c :: cur)

/-- Python `str.split()` (whitespace, empties dropped). -/
def splitWs (cs : List Char) : List (List Char) := splitWsGo cs []

/-- One step of `re.split(r'[X]+', text)`: the piece before the first
separator run, and the text after that run (`none` when no separator). -/
def splitRunsStep (p : Char → Bool) (cs : List Char) :
    List Char × Option (List Char) :=
  let piece := cs.takeWhile (fun c => !p c)
  let rest := cs.dropWhile (fun c => !p c)
  match rest with
  | [] => (piece, none)
  | _ :: _ => (piece, some (rest.dropWhile p))

/-- Fueled worker for `splitRuns`; the fuel is an upper bound on the number
of pieces and is never exhausted when it exceeds the text length. -/
def splitRunsGo (p : Char → Bool) : Nat → List Char → List (List Char)
  | 0, cs => [cs.takeWhile (fun c => !p c)]
  | fuel + 1, cs =>
    match splitRunsStep p cs with
    | (piece, none) => [piece]
    | (piece, some next) => piece :: splitRunsGo p fuel next

/-- Python `re.split(r'[X]+', text)` for a character class `X`: split on
maximal runs of separator characters, keeping boundary empties. -/
def splitRuns (p : Char → Bool) (cs : List Char) : List (List Char) :=
  splitRunsGo p (cs.length + 1) cs

/-- Python `int()` applied to a nonnegative rational (truncation toward
zero; all values truncated in the source are nonnegative). -/
def pyInt (q : ℚ) : ℤ := if 0 ≤ q then ⌊q⌋ else ⌈q⌉

/-- Python `round()` to an integer: round half to even. -/
def pyRound (q : ℚ) : ℤ :=
  let f : ℤ := ⌊q⌋
  let frac : ℚ := q - f
  if frac < 1/2 then f
  else if 1/2 < frac then f + 1
  else if f % 2 = 0 then f else f + 1

/-- Python `f"{q:.1%}"`: percentage with one decimal digit. -/
def fmtPercent1 (q : ℚ) : String :=
  let n : ℤ := pyRound (q * 1000)
  let n' : ℕ := n.toNat
  toString (n' / 10) ++ "." ++ toString (n' % 10) ++ "%"

/-- An ASCII apostrophe, used inside lexicon phrases. -/
def apos : Char := '\''

/-- The one-character string holding an apostrophe. -/
def aposS : String := String.singleton apos

/-! ## A miniature regex engine

The pattern tier of `count_red_flags` uses `re.findall`.  The patterns use
only: literal characters, `\d`, `\s`, `.`, alternation `|`, non-capturing
groups `(?:...)`, quantifiers `?`, `+`, `*`, `{n,m}`, `{n,}`, and a single
negative lookahead `(?!...)`.  The engine below implements exactly Python's
backtracking behaviour for this fragment: alternation prefers the left
branch, quantifiers are greedy, `findall` scans left to right without
overlap and advances by one position after an empty match. -/

/-- Regular expression syntax for the fragment used by the lexicon. -/
inductive RE where
  | eps : RE
  | cls (p : Char → Bool) : RE
  | cat (a b : RE) : RE
  | alt (a b : RE) : RE
  | star (a : RE) : RE
  | nla (a : RE) : RE

/-- Literal character. -/
def rc (c : Char) : RE := RE.cls (fun d => d = c)

/-- Literal string. -/
def rstr (s : String) : RE := s.data.foldr (fun c r => RE.cat (rc c) r) RE.eps

/-- `\d`. -/
def rdigit : RE := RE.cls Char.isDigit

/-- `\s`. -/
def rspace : RE := RE.cls pyIsSpace

/-- `.` (any character but newline). -/
def rany : RE := RE.cls (fun c => c ≠ '\n')

/-- `r?` (greedy option). -/
def ropt (r : RE) : RE := RE.alt r RE.eps

/-- `r+` (greedy). -/
def rplus (r : RE) : RE := RE.cat r (RE.star r)

/-- Alternation of a list, preferring earlier entries (empty list never
occurs in the lexicon). -/
def raltL : List RE → RE
  | [] => RE.eps
  | [r] => r
  | r :: rs => RE.alt r (raltL rs)

/-- Alternation of literal strings. -/
def raltS (ss : List String) : RE := raltL (ss.map rstr)

/-- Concatenation of a list. -/
def rcatL : List RE → RE
  | [] => RE.eps
  | [r] => r
  | r :: rs => RE.cat r (rcatL rs)

/-- `r{0,k}` (greedy): prefer consuming another copy. -/
def rupto : Nat → RE → RE
  | 0, _ => RE.eps
  | k + 1, r => RE.alt (RE.cat r (rupto k r)) RE.eps

/-- Exactly `n` copies. -/
def rexact : Nat → RE → RE
  | 0, _ => RE.eps
  | n + 1, r => RE.cat r (rexact n r)

/-- `r{n,m}` (greedy). -/
def rrep (n m : Nat) (r : RE) : RE := RE.cat (rexact n r) (rupto (m - n) r)

/-- `r{n,}` (greedy). -/
def rrepAtLeast (n : Nat) (r : RE) : RE := RE.cat (rexact n r) (RE.star r)

/-- Backtracking matcher in continuation-passing style.  `reMatch fuel r cs
k` tries to match `r` at the start of `cs` and calls `k` on the remainder;
branches are tried in Python's preference order, so the first `some` is the
match Python would produce.  The fuel only bounds recursion depth; every
evaluation in this file supplies more than enough. -/
def reMatch : Nat → RE → List Char → (List Char → Option (List Char)) →
    Option (List Char)
  | 0, _, _, _ => none
  | _ + 1, RE.eps, cs, k => k cs
  | _ + 1, RE.cls p, cs, k =>
    match cs with
    | [] => none
    | c :: cs' => if p c then k cs' else none
  | fuel + 1, RE.cat a b, cs, k =>
    reMatch fuel a cs (fun cs' => reMatch fuel b cs' k)
  | fuel + 1, RE.alt a b, cs, k =>
    match reMatch fuel a cs k with
    | some r => some r
    | none => reMatch fuel b cs k
  | fuel + 1, RE.star a, cs, k =>
    match reMatch fuel a cs (fun cs' => reMatch fuel (RE.star a) cs' k) with
    | some r => some r
    | none => k cs
  | fuel + 1, RE.nla a, cs, k =>
    match reMatch fuel a cs some with
    | some _ => none
    | none => k cs

/-- Remainder of the input after the match Python's engine would find at
the current position, if any. -/
def reTry (fuel : Nat) (r : RE) (cs : List Char) : Option (List Char) :=
  reMatch fuel r cs some

/-- Fueled worker for `reCount`: the number of matches `re.findall` finds,
scanning left to right.  The first fuel bounds matcher depth, the second
the number of scan positions. -/
def reCountGo (r : RE) (mfuel : Nat) : Nat → List Char → Nat
  | 0, _ => 0
  | sfuel + 1, cs =>
    match reTry mfuel r cs with
    | some rest =>
      if rest.length < cs.length then 1 + reCountGo r mfuel sfuel rest
      else
        match cs with
        | [] => 1
        | _ :: t => 1 + reCountGo r mfuel sfuel t
    | none =>
      match cs with
      | [] => 0
      | _ :: t => reCountGo r mfuel sfuel t

/-- Number of matches of `re.findall(pattern, text)`. -/
def reCount (r : RE) (cs : List Char) : Nat :=
  reCountGo r (4000 + 400 * cs.length) (cs.length + 1) cs

/-! ## `utils/red_flags.py` — the RedFlagMatcher

`count_red_flags(text)` returns `(total_score, unique_flags)`.  Each scanning
stage below is one block of the source function, in source order; the raw
finding list `found_flags` is the concatenation of the stages, and
`total_score` is the sum of its weights (the source adds each weight to the
running total exactly when it appends the finding). -/

/-- Critical red flags (weight 4), from `critical_flags`. -/
def critical_flags : List (String × ℤ) :=
  [("registration fee", 4), ("pay fee", 4), ("payment required", 4),
   ("upfront payment", 4), ("processing fee", 4), ("application fee", 4),
   ("training fee", 4), ("deposit required", 4), ("money transfer", 4),
   ("western union", 4), ("wire transfer", 4), ("bitcoin", 4),
   ("cryptocurrency", 4), ("blockchain investment", 4),
   ("crypto investment", 4), ("guaranteed income", 4), ("guaranteed job", 4),
   ("earn $", 4), ("earn â‚¹", 4), ("make money fast", 4), ("easy money", 4),
   ("get rich quick", 4), ("no interview", 4), ("no interview process", 4),
   ("no assessment", 4), ("skip interview", 4), ("instant hire", 4),
   ("instant approval", 4), ("no verification", 4),
   ("no background check", 4), ("no experience needed", 4),
   ("no qualification needed", 4), ("no degree required", 4),
   ("fake degree accepted", 4), ("forged documents", 4), ("illegal work", 4),
   ("underground job", 4), ("black market", 4)]

/-- High risk flags (weight 3), from `high_risk_flags`. -/
def high_risk_flags : List (String × ℤ) :=
  [("work from home guaranteed", 3), ("urgent hiring", 3),
   ("urgent recruitment", 3), ("limited time offer", 3),
   ("limited positions", 3), ("act now", 3),
   ("don" ++ aposS ++ "t miss", 3), ("don" ++ aposS ++ "t delay", 3),
   ("hurry up", 3), ("apply immediately", 3), ("apply asap", 3),
   ("freshers welcome", 3), ("guaranteed placement", 3),
   ("100% job guarantee", 3), ("click here", 3), ("click link", 3),
   ("copy paste", 3), ("copy-paste", 3), ("home based", 3), ("part time", 3),
   ("passive income", 3), ("side hustle", 3), ("extra income", 3),
   ("earn while you", 3), ("earn from home", 3), ("work from anywhere", 3),
   ("flexible hours", 3), ("own boss", 3), ("be your own boss", 3),
   ("whatsapp", 3), ("telegram", 3), ("viber", 3), ("skype", 3),
   ("contact via whatsapp", 3), ("contact via telegram", 3), ("dm only", 3),
   ("dm for details", 3), ("message for details", 3),
   ("inbox for details", 3), ("typing work", 3), ("online typing", 3),
   ("form filling", 3), ("captcha entry", 3), ("micro task", 3),
   ("crowdsource", 3), ("freelance platform", 3), ("upwork alternative", 3),
   ("fiverr competitor", 3)]

/-- Medium risk flags (weight 1), from `medium_risk_flags`. -/
def medium_risk_flags : List (String × ℤ) :=
  [("no interview required", 1), ("phone interview only", 1),
   ("online interview", 1), ("no office visit", 1), ("remote only", 1),
   ("work anywhere", 1), ("multilevel marketing", 1), ("mlm", 1),
   ("network marketing", 1), ("pyramid scheme", 1), ("referral bonus", 1),
   ("referral commission", 1), ("recruitment bonus", 1),
   ("refer friends", 1), ("refer and earn", 1), ("get commission", 1),
   ("commission only", 1), ("no salary", 1), ("performance based", 1),
   ("variable pay", 1), ("bonus heavy", 1), ("incentive based", 1),
   ("data entry", 1), ("typing job", 1), ("transcription", 1),
   ("surveys", 1), ("online jobs", 1), ("internet job", 1),
   ("online work", 1), ("part time online", 1), ("freelance", 1),
   ("contract", 1), ("temporary", 1), ("gig", 1), ("gig economy", 1)]

/-- Class `[:.]`. -/
def rColonDot : RE := RE.cls (fun c => c = ':' ∨ c = '.')

/-- The pattern tier `pattern_flags`: each triple is the translated regex,
its weight, and its finding description, in source order. -/
def pattern_flags : List (RE × ℤ × String) :=
  [ (rcatL [rc '$', RE.star rspace, rrep 4 6 rdigit, RE.star rspace,
      raltS ["per", "daily", "weekly", "monthly", "guaranteed", "hour"]],
     3, "Unrealistic high income promise"),
    (rcatL [rstr "â‚¹", RE.star rspace, rrep 5 7 rdigit, RE.star rspace,
      raltS ["per", "daily", "weekly", "monthly", "guaranteed", "hour"]],
     3, "Unrealistic high income promise"),
    (rcatL [raltS ["earn", "make", "get", "receive"], rplus rspace,
      ropt (rc '$'), rrepAtLeast 4 rdigit, RE.star rspace,
      raltS ["per", "daily", "weekly", "guaranteed"]],
     3, "Unrealistic earnings claim"),
    (rcatL [raltS ["earn", "make", "get", "receive"], rplus rspace,
      rstr "â‚¹", rrepAtLeast 5 rdigit, RE.star rspace,
      raltS ["per", "daily", "weekly", "guaranteed"]],
     3, "Unrealistic earnings claim"),
    (rcatL [raltS ["salary", "pay", "income", "compensation"],
      RE.star rspace, raltS ["of", "is", ":"], RE.star rspace,
      ropt (rc '$'), rrepAtLeast 4 rdigit],
     2, "Suspicious salary mention"),
    (rcatL [raltS ["salary", "pay", "income", "compensation"],
      RE.star rspace, raltS ["of", "is", ":"], RE.star rspace,
      rstr "â‚¹", rrepAtLeast 5 rdigit],
     2, "Suspicious salary mention"),
    (rcatL [raltS ["work", "job"], rplus rspace, rplus rdigit,
      RE.star rspace, raltS ["hour", "hrs", "hour per", "hours per"],
      RE.star rspace, raltS ["day", "week", "month"]],
     2, "Suspicious work schedule"),
    (rcatL [raltS ["only", "just", "mere"], RE.star rspace, rplus rdigit,
      RE.star rspace, raltS ["hour", "hrs"], rplus rspace,
      raltS ["per", "daily", "day"]],
     2, "Unrealistic work hours"),
    (rcatL [ropt (rcatL [rstr "work", rplus rspace]), raltS ["from", "in"],
      rplus rspace, raltS ["car", "coffee", "cafe", "bed", "anywhere"],
      RE.star rspace, ropt (raltS ["and", "or", "with"]), RE.star rspace,
      raltS ["no", "without"], RE.star rspace,
      raltS ["supervision", "boss", "manager"]],
     3, "Unprofessional work location"),
    (rcatL [ropt (rcatL [rstr "work", rplus rspace]), raltS ["from", "in"],
      rplus rspace, raltS ["car", "coffee", "cafe", "bed", "anywhere"],
      rplus rspace, raltS ["only", "exclusively", "strictly"]],
     2, "Unprofessional work location"),
    (rcatL [raltS ["call", "contact", "reach", "whatsapp", "text",
        "message"], rplus rspace,
      raltL [rstr "us", rstr "me", rstr "this number",
        rcatL [ropt (rc '+'), rrepAtLeast 10 rdigit]]],
     2, "Direct contact emphasis"),
    (rcatL [raltS ["only", "strictly", "exclusively"], rplus rspace,
      raltS ["whatsapp", "telegram", "call", "text", "phone"]],
     3, "Non-standard contact method"),
    (rcatL [raltS ["send", "text", "message", "dm", "inbox"], rplus rspace,
      raltS ["me", "us", "this number"],
      RE.nla (rcatL [rplus rspace,
        raltS ["roles", "jobs", "updates", "notifications"]])],
     2, "Personal contact request"),
    (rcatL [raltS ["whatsapp", "telegram", "skype", "viber"], rplus rspace,
      raltS ["only", "required", "mandatory"]],
     3, "Communication restriction"),
    (rcatL [raltS ["must", "immediately", "urgently", "asap", "now"],
      rplus rspace, raltS ["join", "start", "begin", "apply"]],
     2, "Pressure to join quickly"),
    (rcatL [raltS ["only", "limited", "few"], rplus rspace, rplus rdigit,
      rplus rspace,
      raltS ["position", "seat", "spot", "vacancy", "opening"]],
     2, "Artificial scarcity"),
    (rcatL [raltS ["last", "final", "ending"], rplus rspace,
      raltS ["chance", "opportunity", "date"]],
     2, "Deadline pressure"),
    (raltL [rcatL [rstr "don", ropt (rc apos), rstr "t", rplus rspace,
        raltS ["miss", "delay", "wait"]],
      rcatL [rstr "hurry", rplus rspace, rstr "up"],
      rcatL [rstr "act", rplus rspace, rstr "now"]],
     2, "Urgency language"),
    (rcatL [raltS ["no", "not", "without", "skip"], rplus rspace,
      raltS ["background check", "verification", "interview",
        "assessment"]],
     3, "Skipping verification"),
    (rcatL [raltS ["fake", "forged", "photocopy"], rplus rspace,
      raltL [rcatL [rstr "document", ropt (rc 's')],
        rcatL [rstr "certificate", ropt (rc 's')],
        rcatL [rstr "degree", ropt (rc 's')]]],
     4, "Document fraud acceptance"),
    (rcatL [raltS ["any", "no", "fake"], rplus rspace,
      raltS ["degree", "qualification", "experience"], rplus rspace,
      raltS ["accepted", "required"]],
     3, "Fake credentials acceptance"),
    (rcatL [raltS ["requirement", "requirement", "only", "prefer"],
      ropt rColonDot, RE.star rspace,
      raltS ["age", "gender", "caste", "religion", "marital"]],
     3, "Discriminatory posting"),
    (rcatL [raltS ["male", "female", "boy", "girl"], rplus rspace,
      raltS ["only", "preferred", "required"]],
     3, "Gender discrimination"),
    (raltS ["illegal", "underground", "black market", "grey market"],
     4, "Illegal work mention"),
    (rcatL [raltS ["investment", "deposit", "fee", "payment"], rplus rspace,
      raltS ["required", "needed", "mandatory"]],
     4, "Investment required"),
    (raltS ["refundable", "returnable", "guaranteed return"],
     3, "Investment promise"),
    (rcatL [raltS ["bitcoin", "crypto", "blockchain"], rplus rspace,
      raltS ["investment", "required", "needed"]],
     4, "Crypto investment scheme"),
    (raltL [rstr "mlm",
      rcatL [rstr "multi", ropt rany, rstr "level", ropt rany,
        rstr "marketing"],
      rstr "pyramid",
      rcatL [rstr "network", ropt rany, rstr "marketing"]],
     3, "MLM/pyramid scheme"),
    (rcatL [raltS ["referral", "commission", "bonus"], rplus rspace,
      raltS ["based", "heavy", "only"]],
     2, "Commission-based structure"),
    (rcatL [raltS ["recruit", "refer"], rplus rspace,
      raltS ["friends", "family", "people"]],
     2, "Recruitment focus"),
    (raltS ["get rich quick", "easy money", "passive income",
      "residual income"],
     3, "Get rich quick scheme"),
    (rcatL [raltS ["work from home", "remote work"], rplus rspace,
      raltS ["guaranteed", "assured"]],
     3, "Guaranteed remote work"),
    (rcatL [raltS ["no experience", "no skills", "no qualification"],
      rplus rspace, raltS ["needed", "required"]],
     3, "No requirements claim"),
    (raltL [rcatL [rstr "about", rplus rspace,
        raltL [rstr "us", rcatL [rstr "the", rplus rspace,
          rstr "company"]]],
      rcatL [rstr "company", rplus rspace, rstr "profile"],
      rcatL [rstr "our", rplus rspace, rstr "mission"]],
     0, "Company information present"),
    (raltS ["responsibilities", "requirements", "qualifications", "skills"],
     0, "Job details present"),
    (raltS ["benefits", "salary", "compensation", "perks"],
     0, "Compensation details present"),
    (rcatL [raltS ["ai", "artificial intelligence", "machine learning",
        "ml", "deep learning"], rplus rspace,
      raltS ["job", "work", "opportunity"], rplus rspace,
      raltS ["guaranteed", "assured"]],
     3, "AI/ML scam promise"),
    (rcatL [raltS ["ai", "ml", "data science"], rplus rspace,
      raltS ["certification", "course", "training"], rplus rspace,
      raltS ["free", "paid", "investment"]],
     2, "AI training scam"),
    (rcatL [raltS ["blockchain", "crypto", "web3", "nft"], rplus rspace,
      raltS ["developer", "engineer", "specialist"], rplus rspace,
      raltS ["remote", "home"]],
     3, "Crypto job scam"),
    (rcatL [raltS ["metaverse", "vr", "ar", "virtual reality"],
      rplus rspace, raltS ["job", "career", "opportunity"]],
     2, "Metaverse job scam"),
    (rcatL [raltS ["remote", "home", "flexible"], rplus rspace,
      raltS ["work", "job"], rplus rspace,
      raltS ["unlimited", "unrestricted", "freedom"]],
     3, "Fake remote work freedom"),
    (raltL [rcatL [rstr "set", rplus rspace, rstr "your", rplus rspace,
        rstr "own", rplus rspace, raltS ["hours", "schedule", "pace"]],
      rcatL [rstr "work", rplus rspace, rstr "when", rplus rspace,
        rstr "you", rplus rspace, rstr "want"]],
     2, "Unrealistic flexibility"),
    (raltL [rcatL [rstr "no", rplus rspace,
        raltS ["boss", "manager", "supervisor", "office"]],
      rcatL [rstr "own", rplus rspace, raltS ["boss", "schedule"]]],
     3, "No supervision claim"),
    (rcatL [rstr "learn", rplus rspace,
      raltS ["coding", "programming", "development"], rplus rspace,
      rstr "in", rplus rspace, rplus rdigit, rplus rspace,
      raltL [rcatL [rstr "day", ropt (rc 's')],
        rcatL [rstr "week", ropt (rc 's')],
        rcatL [rstr "month", ropt (rc 's')]]],
     3, "Impossible learning timeline"),
    (rcatL [rstr "become", rplus rspace,
      raltS ["developer", "engineer", "expert"], rplus rspace, rstr "in",
      rplus rspace, rplus rdigit, rplus rspace,
      raltL [rcatL [rstr "day", ropt (rc 's')],
        rcatL [rstr "week", ropt (rc 's')],
        rcatL [rstr "month", ropt (rc 's')]]],
     3, "Unrealistic career promise"),
    (rcatL [rstr "guaranteed", rplus rspace,
      raltS ["placement", "job", "career"], rplus rspace,
      raltS ["after", "upon"], rplus rspace,
      raltS ["completion", "course", "training"]],
     3, "Guaranteed placement scam"),
    (rcatL [raltL [rcatL [rstr "copy", rplus rspace, rstr "paste"],
        rstr "copy-paste",
        rcatL [rstr "ctrl", rc '+', rc 'c'],
        rcatL [rstr "ctrl", rc '+', rc 'v']], rplus rspace,
      raltL [rstr "work", rstr "job",
        rcatL [rstr "task", ropt (rc 's')]]],
     3, "Copy-paste job scam"),
    (raltL [rcatL [rstr "micro", rplus rspace, rstr "task", ropt (rc 's')],
      rcatL [rstr "nano", rplus rspace, rstr "task", ropt (rc 's')],
      rcatL [rstr "click", rplus rspace, rstr "work"],
      rcatL [rstr "captcha", rplus rspace, rstr "entry"]],
     3, "Micro-task exploitation"),
    (raltL [rstr "crowdfunding", rstr "crowdsource",
      rcatL [rstr "platform", rplus rspace,
        raltL [rstr "like", rcatL [rstr "similar", rplus rspace,
          rstr "to"]], rplus rspace, raltS ["upwork", "fiverr"]]],
     2, "Fake freelancing platform"),
    (raltL [rcatL [rstr "invest", rplus rspace,
        raltS ["small", "little", "minimal"], rplus rspace,
        rstr "amount"],
      rcatL [rstr "initial", rplus rspace, rstr "investment"]],
     4, "Investment-based job"),
    (raltL [rstr "roi",
      rcatL [rstr "return", rplus rspace, rstr "on", rplus rspace,
        rstr "investment"],
      rcatL [rstr "profit", rplus rspace, rstr "sharing"],
      rcatL [rstr "revenue", rplus rspace, rstr "sharing"]],
     3, "Investment return promise"),
    (raltL [rstr "partnership",
      rcatL [rstr "joint", rplus rspace, rstr "venture"],
      rcatL [rstr "business", rplus rspace, rstr "opportunity"]],
     2, "Business partnership scam"),
    (raltL [rcatL [rstr "limited", rplus rspace, rstr "spot",
        ropt (rc 's')],
      rcatL [rstr "exclusive", rplus rspace, rstr "opportunity"],
      rcatL [rstr "vip", rplus rspace, rstr "access"]],
     2, "Exclusivity manipulation"),
    (raltL [rcatL [rstr "don", ropt (rc apos), rstr "t", rplus rspace,
        rstr "tell", rplus rspace, raltS ["anyone", "others"]],
      rcatL [rstr "keep", rplus rspace, rstr "it", rplus rspace,
        raltS ["secret", "confidential"]]],
     3, "Secrecy requirement"),
    (rcatL [rstr "only", rplus rspace,
      raltS ["serious", "candidates", "qualified"], rplus rspace,
      raltS ["need", "apply"]],
     2, "Selective candidate claim"),
    (rcatL [raltL [rstr "startup",
        rcatL [rstr "new", rplus rspace, rstr "company"],
        rcatL [rstr "emerging", rplus rspace,
          raltS ["company", "business"]]], rplus rspace,
      ropt (rcatL [rstr "with", rplus rspace]),
      raltL [rcatL [rstr "unlimited", rplus rspace, rstr "potential"],
        rcatL [rstr "high", rplus rspace, rstr "growth"]]],
     2, "Fake startup promise"),
    (rcatL [raltL [rstr "revolutionary", rstr "disruptive",
        rcatL [rstr "game", ropt rany, rstr "changing"]], rplus rspace,
      raltS ["technology", "platform", "solution"]],
     2, "Overhyped technology"),
    (rcatL [raltL [rcatL [rstr "backed", rplus rspace, rstr "by"],
        rcatL [rstr "funded", rplus rspace, rstr "by"],
        rcatL [rstr "invested", rplus rspace, rstr "in", rplus rspace,
          rstr "by"]], rplus rspace,
      raltS ["famous", "celebrity", "influencer"]],
     2, "Celebrity endorsement scam")]

/-- Map-and-flatten helper. -/
def concatMapL (f : α → List β) (l : List α) : List β := (l.map f).flatten

/-- Literal-tier scan: the findings from one weighted-phrase table whose
phrase occurs as a substring of the lowercased text. -/
def litScan (tbl : List (String × ℤ)) (lowerL : List Char) :
    List (String × ℤ) :=
  tbl.filter (fun e => containsSub e.1.data lowerL)

/-- Presence of one of `['urgent', 'immediate', 'now', 'today']` in the
punctuation-stripped text (the context multiplier of the pattern tier). -/
def urgencyWordPresent (clean : List Char) : Bool :=
  ["urgent", "immediate", "now", "today"].any
    (fun w => containsSub w.data clean)

/-- The context multiplier of one pattern-tier entry: `1.0`, set to `1.5`
when the pattern matched more than once, then multiplied by `1.3` when an
urgency word is present. -/
def patMultiplier (n : Nat) (urg : Bool) : ℚ :=
  (if 1 < n then 3/2 else 1) * (if urg then 13/10 else 1)

/-- The findings contributed by one pattern-tier entry. -/
def patScanEntry (lowerL clean : List Char) (e : RE × ℤ × String) :
    List (String × ℤ) :=
  let n := reCount e.1 lowerL
  if n = 0 then []
  else [(e.2.2, pyInt ((e.2.1 : ℚ) * patMultiplier n (urgencyWordPresent clean)))]

/-- Pattern-tier scan over the whole table. -/
def patScan (lowerL clean : List Char) : List (String × ℤ) :=
  concatMapL (patScanEntry lowerL clean) pattern_flags

/-- `caps_ratio`: uppercase characters over text length (floored at 1). -/
def capsFrac (textL : List Char) : ℚ :=
  (textL.countP (fun c => c.isUpper) : ℚ) / ((max textL.length 1 : ℕ) : ℚ)

/-- Finding label of the `>0.3` capitalization branch. -/
def excessiveCapsLabel : String := "Excessive capitalization (SCAM indicator)"

/-- Finding label of the `>0.5` capitalization branch. -/
def allCapsLabel : String := "ALL CAPS TEXT (Strong SCAM indicator)"

/-- Capitalization heuristic, exactly as the source's `if`/`elif` chain:
the `>0.3` test runs first, the `>0.5` branch only on its failure. -/
def capsCheck (textL : List Char) : List (String × ℤ) :=
  if capsFrac textL > 3/10 then [(excessiveCapsLabel, 2)]
  else if capsFrac textL > 1/2 then [(allCapsLabel, 3)]
  else []

/-- The fixed misspelling list of `count_red_flags`. -/
def common_misspellings : List String :=
  ["heelo", "helo", "wel come", "succesful", "occassion", "recieve",
   "excelent", "seperete", "occured", "wiht", "adn", "teh", "reccommend",
   "experiance", "qualifed", "benifits", "salery", "comapny", "organiation"]

/-- Spelling heuristic of `count_red_flags`. -/
def spellCheck (clean : List Char) : List (String × ℤ) :=
  let errs := common_misspellings.countP (fun m => containsSub m.data clean)
  if errs > 2 then
    [("Multiple spelling errors (" ++ toString errs ++ " found)",
      min 2 ((errs : ℤ) - 1))]
  else if errs = 1 ∧ ["urgent", "guaranteed", "easy money"].any
      (fun w => containsSub w.data clean) then
    [("Minor spelling error with suspicious content", 1)]
  else []

/-- Sentence pieces of `re.split(r'[.!?]+', text)` on the original text. -/
def sentencePieces (textL : List Char) : List (List Char) :=
  splitRuns (fun c => c = '.' ∨ c = '!' ∨ c = '?') textL

/-- Average sentence length in words (content-structure heuristic). -/
def avgSentenceLen (textL : List Char) : ℚ :=
  let ss := sentencePieces textL
  ((ss.map (fun s => (splitWs s).length)).sum : ℚ) /
    ((max ss.length 1 : ℕ) : ℚ)

/-- Content-structure heuristic of `count_red_flags`. -/
def sentenceCheck (textL : List Char) : List (String × ℤ) :=
  if avgSentenceLen textL < 5 ∧ (sentencePieces textL).length > 10 then
    [("Poor sentence structure", 1)]
  else []

/-- The twelve `professional_indicators` keys. -/
def professional_indicators : List String :=
  ["responsibilities", "qualifications", "requirements", "skills",
   "experience", "education", "benefits", "salary", "company", "about us",
   "contact", "apply"]

/-- Scam-context trigger of the professional-content heuristic. -/
def scamContext (clean : List Char) : Bool :=
  ["guaranteed", "easy money", "urgent", "apply now", "no experience"].any
    (fun w => containsSub w.data clean)

/-- Professional-content heuristic of `count_red_flags`. -/
def professionalCheck (lowerL clean : List Char) : List (String × ℤ) :=
  let score := professional_indicators.countP
    (fun i => containsSub i.data lowerL)
  if score < 2 ∧ scamContext clean then
    [("Missing professional job details", 2)]
  else if score < 3 ∧ scamContext clean then
    [("Limited professional content", 1)]
  else []

/-- The `scam_words` list of the density heuristic. -/
def scam_words : List String :=
  ["guaranteed", "easy money", "work from home", "no experience", "urgent",
   "apply now", "limited time", "investment", "deposit", "fee", "bitcoin",
   "crypto", "passive income", "side hustle", "extra income", "commission"]

/-- Scam-phrase density heuristic of `count_red_flags`. -/
def densityCheck (lowerL clean : List Char) : List (String × ℤ) :=
  let scamCount := scam_words.countP (fun w => containsSub w.data lowerL)
  let totalWords := (splitWs clean).length
  if totalWords > 0 then
    let density : ℚ := (scamCount : ℚ) / (totalWords : ℚ)
    if density > 1/20 then
      [("High scam phrase density (" ++ fmtPercent1 density ++ ")",
        min 3 (pyInt (density * 50)))]
    else []
  else []

/-- Contact-method heuristic of `count_red_flags`. -/
def contactCheck (lowerL : List Char) : List (String × ℤ) :=
  let n := ["whatsapp", "telegram", "phone", "email", "call", "text",
    "dm"].countP (fun w => containsSub w.data lowerL)
  if n > 2 then [("Multiple contact methods specified", 1)] else []

/-- Money-mention heuristic of `count_red_flags`. -/
def moneyCheck (lowerL : List Char) : List (String × ℤ) :=
  let n := ["$", "â‚¹", "dollar", "rupee", "salary", "pay", "earn",
    "income"].countP (fun w => containsSub w.data lowerL)
  if n > 3 then [("Excessive money references", 1)] else []

/-- Urgency-pressure heuristic of `count_red_flags`. -/
def urgencyCheck (lowerL : List Char) : List (String × ℤ) :=
  let n := ["urgent", "immediate", "asap", "now", "today", "deadline",
    "limited time", "hurry"].countP (fun w => containsSub w.data lowerL)
  if n > 2 then [("High urgency pressure", min 2 ((n : ℤ) - 1))] else []

/-- `text_clean`: `re.sub(r'[^\w\s]', ' ', text_lower)`. -/
def cleanOf (lowerL : List Char) : List Char :=
  lowerL.map (fun c => if pyIsWord c ∨ pyIsSpace c then c else ' ')

/-- The raw finding list `found_flags` of `count_red_flags`, in the order
the source appends: literal tiers, pattern tier, then the heuristics. -/
def found_flags (text : String) : List (String × ℤ) :=
  let textL := text.data
  let lowerL := pyLowerL textL
  let clean := cleanOf lowerL
  litScan critical_flags lowerL ++ litScan high_risk_flags lowerL ++
    litScan medium_risk_flags lowerL ++ patScan lowerL clean ++
    capsCheck textL ++ spellCheck clean ++ sentenceCheck textL ++
    professionalCheck lowerL clean ++ densityCheck lowerL clean ++
    contactCheck lowerL ++ moneyCheck lowerL ++ urgencyCheck lowerL

/-- Association-list lookup with string keys (Python `k in d` / `d[k]`). -/
def lookupStr (k : String) : List (String × α) → Option α
  | [] => none
  | (k', v) :: rest => if k' = k then some v else lookupStr k rest

/-- In-place value replacement for an existing key (Python `d[k] = w`). -/
def setKey (k : String) (w : ℤ) : List (String × ℤ) → List (String × ℤ)
  | [] => []
  | (k', v) :: rest =>
    if k' = k then (k', w) :: rest else (k', v) :: setKey k w rest

/-- One step of the deduplication loop of `count_red_flags`. -/
def updFlag (acc : List (String × ℤ)) (p : String × ℤ) :
    List (String × ℤ) :=
  match lookupStr p.1 acc with
  | none => acc ++ [p]
  | some v => if v < p.2 then setKey p.1 p.2 acc else acc

/-- The `unique_flags` deduplication of `count_red_flags`: keep the maximum
weight per label, in first-appearance order. -/
def uniqueFlags (l : List (String × ℤ)) : List (String × ℤ) :=
  l.foldl updFlag []

/-- `count_red_flags(text)`: the total score and the deduplicated finding
map.  The total is the sum of the raw finding weights, which is exactly the
running total of the source (each stage adds a weight to `total_score` at
the moment it appends the finding). -/
def count_red_flags (text : String) : ℤ × List (String × ℤ) :=
  ((found_flags text).foldl (fun s p => s + p.2) 0,
    uniqueFlags (found_flags text))

/-! ## `utils/domain_check.py` — `is_suspicious_domain` -/

/-- Python `str.endswith`. -/
def pyEndsWith (suffix s : String) : Bool :=
  startsWithL suffix.data.reverse s.data.reverse

/-- The `suspicious_tlds` list of `is_suspicious_domain`. -/
def suspicious_tlds_dc : List String :=
  [".xyz", ".top", ".work", ".click", ".link", ".club", ".date", ".racing",
   ".science", ".gq", ".ml", ".tk", ".cf", ".ga", ".buzz", ".info"]

/-- The `lookalikes` substitution table of `is_suspicious_domain`. -/
def lookalikes : List (String × String) :=
  [("gooogle", "google"), ("googel", "google"), ("amaz0n", "amazon"),
   ("microsft", "microsoft"), ("micros0ft", "microsoft"),
   ("appple", "apple"), ("faceb00k", "facebook"), ("linkdin", "linkedin"),
   ("linkedln", "linkedin")]

/-- `re.match(r'^[a-zA-Z0-9]+\.[a-zA-Z]\x7b2,\x7d$', s)` as a predicate: a
nonempty alphanumeric label, a dot, then at least two letters.  (The greedy
`+` cannot backtrack usefully here because the following literal is a dot,
which is not alphanumeric, so the maximal-munch reading is exact.) -/
def alnumDotAlpha2 (s : String) : Bool :=
  let pre := s.data.takeWhile (fun c => c.isAlphanum)
  let rest := s.data.drop pre.length
  match rest with
  | '.' :: tail => !pre.isEmpty && tail.length ≥ 2 && tail.all Char.isAlpha
  | _ => false

/-- `is_suspicious_domain(domain)`.  Returns `Except` because the Python
indexes `domain.split('.')[-2]`, which raises `IndexError` on a dotless
domain that reaches the digit check. -/
def is_suspicious_domain (domain : String) : Except String (Bool × String) :=
  if domain = "" ∨ domain = "Not available" then
    .ok (true, "No valid domain found")
  else
    match suspicious_tlds_dc.find? (fun tld => pyEndsWith tld domain) with
    | some tld => .ok (true, "Suspicious TLD: " ++ tld)
    | none =>
      let parts := domain.splitOn "."
      if parts.length > 4 then .ok (true, "Excessive subdomains")
      else if parts.length < 2 then
        .error "IndexError: list index out of range"
      else
        let p2 := parts.getD (parts.length - 2) ""
        let p1 := parts.getD (parts.length - 1) ""
        if p2.data.any Char.isDigit ∧ !alnumDotAlpha2 (p2 ++ "." ++ p1) then
          .ok (true, "Suspicious number pattern in domain")
        else if domain.data.count '-' > 2 then
          .ok (true, "Multiple hyphens in domain")
        else
          match lookalikes.find?
              (fun fr => pyInStr fr.1 (pyLower domain)) with
          | some fr =>
            .ok (true, "Possible lookalike domain (fake " ++ fr.1 ++
              ", real " ++ fr.2 ++ ")")
          | none => .ok (false, "Domain appears legitimate")

/-! ## `src/feature_extractor.py` — the FeatureExtractor

`TextBlob` sentiment is an external library call; it enters the embedding
as a `SentimentOracle` parameter mapping the combined text to the
`(polarity, subjectivity)` pair (the source's `try/except` fallback to
`(0, 0)` is one possible oracle). -/

/-- External sentiment collaborator: text to (polarity, subjectivity). -/
def SentimentOracle : Type := String → ℚ × ℚ

/-- `re.match(r'^\d+\..*$', s)` as a predicate: at least one leading
digit, a dot, then any newline-free remainder. -/
def numLeadRegex (s : String) : Bool :=
  let pre := s.data.takeWhile Char.isDigit
  !pre.isEmpty &&
    (match s.data.drop pre.length with
     | '.' :: tail => tail.all (fun c => c ≠ '\n')
     | _ => false)

/-- `check_suspicious_domain(domain)` of the FeatureExtractor: a score in
`[0, 1]` by the first matching rule. -/
def check_suspicious_domain (domain : String) : ℚ :=
  if domain = "" then 1
  else
    let dl := pyLower domain
    if ["temp", "fake", "test", "demo", "example", "mail.com", "gmail",
        "yahoo", "hotmail"].any (fun k => pyInStr k dl) then 1
    else if [".tk", ".ml", ".ga", ".cf", ".gq", ".xyz", ".top", ".win",
        ".bid"].any (fun tld => pyEndsWith tld dl) then 8/10
    else if ["temp-mail", "10minutemail", "guerrillamail",
        "mailinator"].any (fun p => pyInStr p dl) then 1/2
    else if numLeadRegex dl then 7/10
    else if ((dl.splitOn ".").getD 0 "").length < 3 then 6/10
    else 0

/-- `extract_red_flags(description, requirements, salary)`. -/
def extract_red_flags (description requirements salary : String) :
    List String :=
  if description.length < 50 then ["vague_description"]
  else
    let text_combined := pyLower (description ++ " " ++ requirements)
    let salaryFlag :=
      if salary ≠ "" ∧ (pyInStr "unlimited" (pyLower salary) ∨
          pyInStr "negotiable" (pyLower salary) ∨
          pyInStr "fake" (pyLower salary)) then ["unrealistic_salary"]
      else []
    let spamFlag :=
      if ["work from home with no experience", "easy money",
          "get rich quick", "no experience needed", "guaranteed income",
          "bitcoin", "crypto"].any (fun i => pyInStr i text_combined) then
        ["spam_phrase"]
      else []
    let emailFlag :=
      if pyInStr "@" text_combined ∧
          ["@temp", "@fake", "@test", "@gmail.com", "@yahoo.com"].any
            (fun s => pyInStr s text_combined) then
        ["suspicious_email"]
      else []
    let reqFlag :=
      if requirements = "" ∨ requirements.trim.length < 20 then
        ["missing_requirements"]
      else []
    salaryFlag ++ spamFlag ++ emailFlag ++ reqFlag

/-- Vowel set of `_count_syllables` (includes `y`). -/
def isVowelY (c : Char) : Bool := c ∈ ['a', 'e', 'i', 'o', 'u', 'y']

/-- `_count_syllables(word)`: vowel-group transitions, trailing `e`
discounted, floored at one.  The source indexes `word[0]`, so it is only
ever applied to the nonempty words produced by `str.split()`; on `[]` this
embedding returns 1 via the floor. -/
def count_syllables (w : List Char) : ℤ :=
  let w := pyLowerL w
  let base : ℤ := match w with
    | [] => 0
    | c :: _ => if isVowelY c then 1 else 0
  let trans : ℤ :=
    ((w.zip w.tail).countP (fun p => !isVowelY p.1 && isVowelY p.2) : ℤ)
  let total := base + trans
  let total := if w.getLast? = some 'e' then total - 1 else total
  if total = 0 then 1 else total

/-- `_calculate_readability(text, words, sentences)`: a simplified Flesch
score normalized into `[0, 1]`. -/
def calculate_readability (words sentences : List (List Char)) : ℚ :=
  if words.isEmpty ∨ sentences.isEmpty then 0
  else
    let avgSentLen : ℚ := (words.length : ℚ) / (sentences.length : ℚ)
    let avgSyll : ℚ :=
      (((words.map count_syllables).sum : ℤ) : ℚ) / (words.length : ℚ)
    let r : ℚ := 206835/1000 - (1015/1000) * avgSentLen - (846/10) * avgSyll
    max 0 (min 1 (r / 100))

/-- `_calculate_lexical_diversity(words)`: unique over total words. -/
def calculate_lexical_diversity (words : List (List Char)) : ℚ :=
  if words.isEmpty then 0
  else (words.dedup.length : ℚ) / (words.length : ℚ)

/-- Square of `_calculate_sentence_complexity(sentences)`.  The source's
value is `std/mean` (population standard deviation), an irrational real;
the embedding carries its square `variance/mean²`, which determines every
comparison the analyzer makes (the value is nonnegative and squaring is
monotone there). -/
def sentence_complexity_sq (sentences : List (List Char)) : ℚ :=
  if sentences.length < 2 then 0
  else
    let lens := (sentences.filter
      (fun s => s.any (fun c => !pyIsSpace c))).map
        (fun s => ((splitWs s).length : ℚ))
    if lens.isEmpty then 0
    else
      let n : ℚ := (lens.length : ℚ)
      let mean := lens.sum / n
      let variance := (lens.map (fun x => (x - mean) ^ 2)).sum / n
      if mean > 0 then variance / mean ^ 2 else 0

/-- The 23-term `professional_terms` set. -/
def professional_terms : List String :=
  ["responsibilities", "requirements", "qualifications", "skills",
   "experience", "education", "benefits", "salary", "compensation",
   "company", "organization", "team", "project", "client", "customer",
   "deadline", "milestone", "objective", "strategy", "analysis",
   "development", "implementation", "collaboration"]

/-- `_calculate_professional_term_ratio(text)`: professional members of
the word set over the size of the word set. -/
def professional_term_frac_of (textL : List Char) : ℚ :=
  let uwords := (splitWs (pyLowerL textL)).dedup
  let cnt := uwords.countP
    (fun w => professional_terms.any (fun t => t.data = w))
  if uwords.isEmpty then 0 else (cnt : ℚ) / (uwords.length : ℚ)

/-- `analyze_red_flag_combinations(red_flags, text)`: combination score
and combination labels. -/
def analyze_red_flag_combinations (redFlags : List String)
    (textL : List Char) : ℚ × List String :=
  let lowerL := pyLowerL textL
  let combos : List (List String × ℚ × String) :=
    [(["payment required", "urgent hiring"], 8/10,
      "Payment + Urgency: Classic scam pattern"),
     (["bitcoin", "guaranteed income"], 8/10,
      "Crypto + Guarantee: Investment scam"),
     (["no experience needed", "high salary"], 7/10,
      "No experience + High pay: Unrealistic"),
     (["whatsapp only", "no interview"], 7/10,
      "WhatsApp only + No interview: Suspicious contact"),
     (["work from home", "no experience needed", "guaranteed"], 6/10,
      "WFH + No exp + Guaranteed: Common scam"),
     (["urgent", "apply now"], 4/10, "Urgency + Apply pressure"),
     (["investment", "commission"], 4/10,
      "Investment + Commission: MLM indicators"),
     (["crypto", "remote work"], 3/10,
      "Crypto + Remote: Modern scam pattern"),
     (["ai training", "guaranteed job"], 3/10,
      "AI training + Job guarantee: Training scam")]
  let hits := combos.filter (fun c => c.1.all (fun fl => redFlags.contains fl))
  let comboScore := (hits.map (fun c => c.2.1)).sum
  let comboLabels := hits.map (fun c => c.2.2)
  let (comboScore, comboLabels) :=
    if redFlags.length ≥ 3 then
      (comboScore + 2/10, comboLabels ++ ["Multiple red flags detected"])
    else (comboScore, comboLabels)
  let scamCount := (["guaranteed", "easy money", "work from home",
    "no experience", "urgent", "apply now", "bitcoin", "crypto",
    "passive income"] : List String).countP
      (fun p => containsSub p.data lowerL)
  let totalWords := (splitWs lowerL).length
  if totalWords > 0 then
    let density : ℚ := (scamCount : ℚ) / (totalWords : ℚ)
    if density > 3/100 then
      (comboScore + min (3/10) (density * 5),
       comboLabels ++
         ["High scam phrase density (" ++ fmtPercent1 density ++ ")"])
    else (comboScore, comboLabels)
  else (comboScore, comboLabels)

/-- The feature mapping produced by `extract_all_features` (and then
updated by the analyzer).  Field names follow the source feature keys,
with `_ratio` keys rendered as `_frac`.  `red_flags_score` is the key the
analyzer adds later; `FeatureExtractor` leaves it absent and
`_fast_prediction` reads it with default 0, embedded as initial value 0.
`sentence_complexity_sq` carries the square of the source's
`sentence_complexity` (see `sentence_complexity_sq`). -/
structure Features where
  text_length : ℕ
  word_count : ℕ
  avg_word_length : ℚ
  unique_word_frac : ℚ
  uppercase_frac : ℚ
  digit_frac : ℚ
  spelling_errors : ℕ
  grammar_score : ℕ
  sentence_count : ℕ
  domain_exists : ℕ
  domain_length : ℕ
  has_suspicious_domain : ℚ
  company_name_length : ℕ
  red_flag_count : ℕ
  red_flags : List String
  red_flags_score : ℤ
  sentiment_polarity : ℚ
  sentiment_subjectivity : ℚ
  readability_score : ℚ
  lexical_diversity : ℚ
  sentence_complexity_sq : ℚ
  professional_term_frac : ℚ
  red_flag_combo_score : ℚ
  red_flag_combinations : List String
  text_quality_score : ℚ
  suspicion_score : ℚ
deriving DecidableEq

/-- `extract_all_features(job_data)`: the feature mapping and the combined
text.  `company_name` is read with `job_data.get('company_name', '')`, a
key the analyzer never supplies, so it is the empty string here. -/
def extract_all_features (sent : SentimentOracle)
    (description requirements company_profile company_domain salary :
      String) : Features × String :=
  let combined_text :=
    description ++ " " ++ requirements ++ " " ++ company_profile
  let textL := combined_text.data
  let company_name : String := ""
  let words := splitWs textL
  let sentences := sentencePieces textL
  let red_flags := extract_red_flags description requirements salary
  let sentPair := sent combined_text
  let readability := calculate_readability words sentences
  let lexdiv := calculate_lexical_diversity words
  let profFrac := professional_term_frac_of textL
  let combo := analyze_red_flag_combinations red_flags textL
  ({ text_length := textL.length
     word_count := words.length
     avg_word_length := 5
     unique_word_frac := 6/10
     uppercase_frac :=
       if textL.isEmpty then 0
       else (textL.countP (fun c => c.isUpper) : ℚ) / (textL.length : ℚ)
     digit_frac :=
       if textL.isEmpty then 0
       else (textL.countP (fun c => c.isDigit) : ℚ) / (textL.length : ℚ)
     spelling_errors := 0
     grammar_score := textL.length
     sentence_count :=
       textL.count '.' + textL.count '!' + textL.count '?' + 1
     domain_exists := if company_domain = "" then 0 else 1
     domain_length := company_domain.length
     has_suspicious_domain := check_suspicious_domain company_domain
     company_name_length := company_name.length
     red_flag_count := red_flags.length
     red_flags := red_flags
     red_flags_score := 0
     sentiment_polarity := sentPair.1
     sentiment_subjectivity := sentPair.2
     readability_score := readability
     lexical_diversity := lexdiv
     sentence_complexity_sq := sentence_complexity_sq sentences
     professional_term_frac := profFrac
     red_flag_combo_score := combo.1
     red_flag_combinations := combo.2
     text_quality_score :=
       readability * 3/10 + lexdiv * 3/10 + profFrac * 4/10
     suspicion_score :=
       min 1 ((red_flags.length : ℚ) * 1/10 + combo.1 * 5/100) },
   combined_text)

/-! ## `src/analyzer.py` — the JobAnalyzer scoring path

`analyze_domain_complete` reaches WHOIS over the network; it enters the
embedding as a `DomainOracle` parameter (value or raised exception).  Its
result is irrelevant to the assessment: the source stores it with
`result['domain_analysis'] = ...` before `result` is created, which raises
`UnboundLocalError`, swallowed by the enclosing `except`. -/

/-- The job fields the analyzer reads from `job_data`. -/
structure JobData where
  title : String
  company : String
  company_domain : String
  location : String
  description : String
  requirements : String
  salary : String
  company_profile : String
  job_portal : String
  url : String
deriving DecidableEq

/-- Serialized values of the assessment dictionary. -/
inductive PyVal where
  | str : String → PyVal
  | bool : Bool → PyVal
  | num : ℚ → PyVal
  | strList : List String → PyVal
  | noneV : PyVal
deriving DecidableEq

/-- External WHOIS/reputation collaborator standing for
`analyze_domain_complete`: a value, or a raised exception. -/
def DomainOracle : Type := String → Except String PyVal

/-- The assignment `result['domain_analysis'] = domain_analysis` at a point
where the local `result` is not yet bound: it always raises. -/
def storeIntoUnboundResult : PyVal → Except String Unit :=
  fun _ => .error
    "UnboundLocalError: local variable result referenced before assignment"

/-- The guarded `try` block of `_analyze_job_data` around the domain
analysis: run the oracle, attempt the store, swallow any exception. -/
def domain_analysis_block (da : DomainOracle) (jd : JobData) :
    Option Unit :=
  if jd.company_domain ≠ "" then
    match (da (jd.company_domain ++ " " ++ jd.description)).bind
        storeIntoUnboundResult with
    | .ok u => some u
    | .error _ => none
  else none

/-- The red-flag name list the analyzer derives from the
`count_red_flags` dictionary (names with positive weight, in dict order). -/
def analyzerRedFlags (jd : JobData) : List String :=
  (((count_red_flags jd.description).2).filter (fun p => p.2 > 0)).map
    Prod.fst

/-- The features mapping after the analyzer's updates
(`red_flag_count`, `red_flags`, `red_flags_score`). -/
def analyzerFeatures (sent : SentimentOracle) (jd : JobData) : Features :=
  let f := (extract_all_features sent jd.description jd.requirements
    jd.company_profile jd.company_domain jd.salary).1
  let redFlags := analyzerRedFlags jd
  { f with
    red_flag_count := redFlags.length
    red_flags := redFlags
    red_flags_score := (count_red_flags jd.description).1 }

/-- The length-based positive-evidence branch of `_fast_prediction`
(source lines `if text_length > 600 ... elif text_length > 1000 ...`). -/
def lengthPositive (text_length : ℕ) : ℚ :=
  if text_length > 600 then 8/100
  else if text_length > 1000 then 12/100
  else 0

/-- The critical-pattern list of `_fast_prediction`. -/
def critical_patterns_fp : List String :=
  ["registration fee", "pay fee", "payment required", "upfront payment",
   "bitcoin", "cryptocurrency", "blockchain investment",
   "crypto investment", "guaranteed income", "guaranteed job",
   "no interview", "no background check", "fake degree accepted",
   "illegal work"]

/-- The high-risk-pattern list of `_fast_prediction`. -/
def high_risk_patterns_fp : List String :=
  ["urgent hiring", "whatsapp", "telegram", "viber", "skype",
   "work from home guaranteed", "no experience needed", "easy money",
   "get rich quick", "passive income", "micro task", "captcha entry"]

/-- `_fast_prediction(features, red_flags)`: the rule-based confidence,
clamped into `[0, 1]` at the end. -/
def fast_prediction (f : Features) (redFlags : List String) : ℚ :=
  let score : ℚ := 5/100
  let rfs := f.red_flags_score
  let score :=
    if rfs > 0 then score + min ((rfs : ℚ) / 20) 1 * (6/10)
    else score - 1/10
  let score :=
    if redFlags ≠ [] then
      let crit : ℤ := redFlags.countP (fun fl =>
        critical_patterns_fp.any (fun p => pyInStr p (pyLower fl)))
      let high : ℤ := redFlags.countP (fun fl =>
        high_risk_patterns_fp.any (fun p => pyInStr p (pyLower fl)))
      let other : ℤ := (redFlags.length : ℤ) - crit - high
      score + (crit : ℚ) * 15/100 + (high : ℚ) * 8/100 +
        (other : ℚ) * 3/100
    else score
  let sds := f.has_suspicious_domain
  let score := if sds > 0 then score + sds * 2/10 else score
  let tq := f.text_quality_score
  let tl := f.text_length
  let score :=
    if tq > 6/10 ∧ tl > 500 then score - 15/100
    else if tq < 3/10 then score + 1/10
    else if tq > 7/10 then score - 5/100
    else score
  let sp := f.sentiment_polarity
  let score :=
    if sp > 7/10 then score + 8/100
    else if sp > 1/2 then score + 3/100
    else score
  let rd := f.readability_score
  let score :=
    if rd < 2/10 ∨ rd > 9/10 then score + 3/100 else score
  let pr := f.professional_term_frac
  let score :=
    if pr < 5/100 then score + 8/100
    else if pr > 2/10 then score - 1/10
    else score
  let ld := f.lexical_diversity
  let score := if ld < 3/10 then score + 6/100 else score
  let score := score + f.suspicion_score * 3/10
  let score := score + f.red_flag_combo_score * 2/10
  let positive : ℚ := 0
  let positive :=
    if f.domain_exists ≠ 0 ∧ sds = 0 then positive + 15/100 else positive
  let positive := positive + lengthPositive tl
  let positive := if pr > 15/100 then positive + 1/10 else positive
  let positive :=
    if 4/10 ≤ rd ∧ rd ≤ 7/10 then positive + 5/100 else positive
  let positive := if ld > 1/2 then positive + 5/100 else positive
  let positive :=
    if rfs = 0 ∧ redFlags.length = 0 then positive + 15/100 else positive
  let score := score - positive
  max 0 (min score 1)

/-- `_assess_severity(red_flags, combined_score)`. -/
def assess_severity (redFlags : List String) (combined : ℚ) : String :=
  let critCount := redFlags.countP (fun fl =>
    fl = "suspicious_email" ∨ fl = "spam_phrase" ∨
      fl = "unrealistic_salary")
  if critCount > 0 ∨ combined > 8/10 then "High"
  else if redFlags.length > 3 ∨ combined > 6/10 then "Medium"
  else "Low"

/-- The final confidence of the analyzer for one job posting. -/
def combinedScore (sent : SentimentOracle) (jd : JobData) : ℚ :=
  fast_prediction (analyzerFeatures sent jd) (analyzerRedFlags jd)

/-- `_create_description_preview(description)`. -/
def create_description_preview (description : String) : String :=
  if description = "" then "No description available"
  else
    let d := description.trim
    if d.length > 500 then String.mk (d.data.take 500) ++ "..." else d

/-- `_analyze_job_data(job_data)`: the assessment dictionary (the features
half of the returned pair is `analyzerFeatures`).  The `job_data.get`
defaults of the source never apply because the analyzer's parse step
populates every key. -/
def analyze_job_data (da : DomainOracle) (sent : SentimentOracle)
    (jd : JobData) : List (String × PyVal) :=
  let red_flags := analyzerRedFlags jd
  let score := combinedScore sent jd
  let final_prediction :=
    if score > 1/2 then "FAKE JOB" else "GENUINE JOB"
  let severity := assess_severity red_flags score
  let _domainBlock := domain_analysis_block da jd
  [("final_prediction", .str final_prediction),
   ("is_fake", .bool (decide (score > 1/2))),
   ("ai_confidence", .num (score * 100)),
   ("combined_confidence", .num (score * 100)),
   ("red_flags_count", .num (red_flags.length : ℚ)),
   ("red_flags_list", .strList red_flags),
   ("red_flags_severity", .str severity),
   ("job_portal", .str jd.job_portal),
   ("company", .str jd.company),
   ("company_domain", .str jd.company_domain),
   ("job_title", .str jd.title),
   ("location", .str jd.location),
   ("description_preview", .str (create_description_preview
     jd.description)),
   ("url", .str jd.url),
   ("success", .bool true),
   ("error", .noneV)]

/-- `_assess_job_quality(analysis_result, features)`: the clamped numeric
quality score (before the band lookup). -/
def assess_job_quality_score (confidence : ℚ) (redFlagsCount : ℕ)
    (is_fake : Bool) (f : Features) : ℚ :=
  let q : ℚ := 50
  let q :=
    if redFlagsCount = 0 then q + 35
    else if redFlagsCount = 1 then q + 20
    else if redFlagsCount = 2 then q + 10
    else if redFlagsCount = 3 then q + 0
    else if redFlagsCount ≤ 5 then q - 10
    else q - (redFlagsCount : ℚ) * 8
  let q :=
    if confidence ≥ 90 then q + 25
    else if confidence ≥ 80 then q + 20
    else if confidence ≥ 70 then q + 15
    else if confidence ≥ 60 then q + 10
    else if confidence ≥ 50 then q + 5
    else if confidence ≥ 40 then q + 0
    else if confidence ≥ 30 then q - 5
    else if confidence ≥ 20 then q - 10
    else q - 20
  let q := q + (f.text_quality_score - 1/2) * 50
  let pr := f.professional_term_frac
  let q :=
    if pr > 2/10 then q + 25
    else if pr > 15/100 then q + 20
    else if pr > 1/10 then q + 15
    else if pr > 5/100 then q + 10
    else q - 15
  let rd := f.readability_score
  let q :=
    if 4/10 ≤ rd ∧ rd ≤ 7/10 then q + 15
    else if 3/10 ≤ rd ∧ rd ≤ 8/10 then q + 10
    else if rd < 2/10 ∨ rd > 9/10 then q - 10
    else q
  let ld := f.lexical_diversity
  let q :=
    if ld > 7/10 then q + 10
    else if ld > 6/10 then q + 8
    else if ld > 1/2 then q + 5
    else if ld < 3/10 then q - 15
    else if ld < 4/10 then q - 10
    else q
  let hsd := f.has_suspicious_domain
  let domainScore : ℚ :=
    if f.domain_exists ≠ 0 then 20 + (if hsd < 3/10 then 10 else 0)
    else if hsd > 7/10 then -30
    else if hsd > 1/2 then -20
    else -10
  let q := q + domainScore
  let sp := f.sentiment_polarity
  let q :=
    if |sp| < 2/10 then q + 8
    else if |sp| < 4/10 then q + 5
    else if sp > 7/10 then q - 10
    else if sp < -(3/10) then q - 5
    else q
  let tl := f.text_length
  let q :=
    if tl > 800 then q + 10
    else if tl > 500 then q + 5
    else if tl < 200 then q - 15
    else if tl < 300 then q - 10
    else q
  let scSq := f.sentence_complexity_sq
  let q :=
    if 1/4 ≤ scSq ∧ scSq ≤ 9/4 then q + 5
    else if scSq > 4 then q - 5
    else q
  let q :=
    if is_fake then
      if confidence > 80 then max 5 (q * 3/10)
      else if confidence > 60 then max 10 (q * 4/10)
      else max 15 (q * 1/2)
    else q
  max 0 (min 100 q)

/-- The ten-band grade lookup closing `_assess_job_quality`. -/
def quality_grade (q : ℚ) : String :=
  if q ≥ 90 then "EXCELLENT"
  else if q ≥ 80 then "VERY HIGH"
  else if q ≥ 70 then "HIGH"
  else if q ≥ 60 then "GOOD"
  else if q ≥ 50 then "MODERATE"
  else if q ≥ 40 then "FAIR"
  else if q ≥ 30 then "LOW"
  else if q ≥ 20 then "VERY LOW"
  else if q ≥ 10 then "POOR"
  else "SUSPICIOUS"

/-- The quality score the pipeline computes for a posting
(`_assess_job_quality` applied to the analyzer's own outputs). -/
def jobQualityScore (sent : SentimentOracle) (jd : JobData) : ℚ :=
  assess_job_quality_score (combinedScore sent jd * 100)
    (analyzerRedFlags jd).length (decide (combinedScore sent jd > 1/2))
    (analyzerFeatures sent jd)

/-! ## Auxiliary definitions for the statements -/

/-- Maximum of two optional weights (`none` = absent). -/
def omax : Option ℤ → Option ℤ → Option ℤ
  | none, b => b
  | some v, none => some v
  | some v, some w => some (max v w)

/-- The maximum weight among the entries of a finding list carrying a given
label, if any. -/
def maxW (k : String) : List (String × ℤ) → Option ℤ
  | [] => none
  | p :: rest =>
    if p.1 = k then
      some (match maxW k rest with
        | none => p.2
        | some v => max p.2 v)
    else maxW k rest

/-- The literal-tier portion of the `count_red_flags` total: the summed
weights of the critical, high and medium phrase tables that occur as
substrings of the lowercased text. -/
def literal_tier_score (text : String) : ℤ :=
  (((litScan critical_flags (pyLowerL text.data) ++
    litScan high_risk_flags (pyLowerL text.data) ++
    litScan medium_risk_flags (pyLowerL text.data)).map Prod.snd).sum)

/-- A job posting with every field empty. -/
def emptyJobData : JobData := ⟨"", "", "", "", "", "", "", "", "", ""⟩

/-- The sentiment oracle realizing the source's `except` fallback
`(0.0, 0.0)`. -/
def zeroSentiment : SentimentOracle := fun _ => (0, 0)

/-- A domain oracle standing for an unreachable WHOIS service. -/
def failingWhois : DomainOracle := fun _ => .error "whois unreachable"

/-- A feature vector that differs only in `text_length`, used to compare
the analyzer's length deductions (`suspicion_score` is midscale so the
final clamp is inactive). -/
def testFeatures (n : ℕ) : Features :=
  { text_length := n, word_count := 0, avg_word_length := 0,
    unique_word_frac := 0, uppercase_frac := 0, digit_frac := 0,
    spelling_errors := 0, grammar_score := 0, sentence_count := 0,
    domain_exists := 0, domain_length := 0, has_suspicious_domain := 0,
    company_name_length := 0, red_flag_count := 0, red_flags := [],
    red_flags_score := 0, sentiment_polarity := 0,
    sentiment_subjectivity := 0, readability_score := 0,
    lexical_diversity := 0, sentence_complexity_sq := 0,
    professional_term_frac := 0, red_flag_combo_score := 0,
    red_flag_combinations := [], text_quality_score := 0,
    suspicion_score := 1/2 }

/-! ## Lemmas about the finding deduplication -/

theorem lookupStr_append (k : String) (a b : List (String × α)) :
    lookupStr k (a ++ b) =
      (match lookupStr k a with
        | some v => some v
        | none => lookupStr k b) := by
  induction a with
  | nil => simp [lookupStr]
  | cons p rest ih =>
    obtain ⟨k', v⟩ := p
    by_cases h : k' = k
    · simp [lookupStr, h]
    · simp [lookupStr, h, ih]

theorem lookupStr_eq_none (k : String) (l : List (String × α)) :
    lookupStr k l = none ↔ k ∉ l.map Prod.fst := by
  induction l with
  | nil => simp [lookupStr]
  | cons p rest ih =>
    obtain ⟨k', v⟩ := p
    by_cases h : k' = k
    · subst h
      simp [lookupStr]
    · simp [lookupStr, h, ih, Ne.symm h]

theorem setKey_map_fst (k : String) (w : ℤ) (l : List (String × ℤ)) :
    (setKey k w l).map Prod.fst = l.map Prod.fst := by
  induction l with
  | nil => simp [setKey]
  | cons p rest ih =>
    obtain ⟨k', v⟩ := p
    by_cases h : k' = k
    · simp [setKey, h]
    · simp [setKey, h, ih]

theorem lookupStr_setKey_ne (k j : String) (w : ℤ) (l : List (String × ℤ))
    (h : j ≠ k) : lookupStr j (setKey k w l) = lookupStr j l := by
  induction l with
  | nil => simp [setKey]
  | cons p rest ih =>
    obtain ⟨k', v⟩ := p
    by_cases hk : k' = k
    · subst hk
      have hne : ¬ k' = j := fun hh => h hh.symm
      simp [setKey, lookupStr, hne]
    · by_cases hj : k' = j
      · subst hj
        simp [setKey, hk, lookupStr]
      · simp [setKey, hk, lookupStr, hj, ih]

theorem lookupStr_setKey_self (k : String) (w v : ℤ)
    (l : List (String × ℤ)) (h : lookupStr k l = some v) :
    lookupStr k (setKey k w l) = some w := by
  induction l with
  | nil => simp [lookupStr] at h
  | cons p rest ih =>
    obtain ⟨k', v'⟩ := p
    by_cases hk : k' = k
    · simp [setKey, hk, lookupStr]
    · simp only [lookupStr, if_neg hk] at h
      simp [setKey, hk, lookupStr, ih h]

theorem omax_assoc (a b c : Option ℤ) :
    omax (omax a b) c = omax a (omax b c) := by
  cases a <;> cases b <;> cases c <;> simp [omax, max_assoc]

theorem omax_some_left (w : ℤ) (o : Option ℤ) :
    omax (some w) o =
      some (match o with | none => w | some v => max w v) := by
  cases o <;> rfl

theorem updFlag_lookup (acc : List (String × ℤ)) (p : String × ℤ)
    (j : String) :
    lookupStr j (updFlag acc p) =
      if p.1 = j then omax (lookupStr j acc) (some p.2)
      else lookupStr j acc := by
  obtain ⟨k, w⟩ := p
  unfold updFlag
  cases h : lookupStr k acc with
  | none =>
    dsimp only
    rw [lookupStr_append]
    by_cases hj : k = j
    · subst hj
      rw [h]
      simp [lookupStr, omax]
    · cases hacc : lookupStr j acc <;> simp [lookupStr, hacc, hj, omax]
  | some v =>
    dsimp only
    by_cases hw : v < w
    · rw [if_pos hw]
      by_cases hj : k = j
      · subst hj
        rw [lookupStr_setKey_self k w v acc h, h]
        simp [omax, max_eq_right hw.le]
      · rw [lookupStr_setKey_ne k j w acc (fun hh => hj hh.symm)]
        simp [hj]
    · rw [if_neg hw]
      by_cases hj : k = j
      · subst hj
        rw [h]
        simp [omax, max_eq_left (not_lt.mp hw)]
      · simp [hj]

theorem updFlag_keys_nodup (acc : List (String × ℤ)) (p : String × ℤ)
    (h : (acc.map Prod.fst).Nodup) :
    ((updFlag acc p).map Prod.fst).Nodup := by
  obtain ⟨k, w⟩ := p
  unfold updFlag
  cases hl : lookupStr k acc with
  | none =>
    have hk : k ∉ acc.map Prod.fst := (lookupStr_eq_none k acc).mp hl
    dsimp only
    simp [List.nodup_append, h, hk]
  | some v =>
    dsimp only
    by_cases hw : v < w
    · rw [if_pos hw, setKey_map_fst]
      exact h
    · rw [if_neg hw]
      exact h

theorem foldl_updFlag_lookup (L : List (String × ℤ)) :
    ∀ (acc : List (String × ℤ)) (j : String),
      lookupStr j (L.foldl updFlag acc) =
        omax (lookupStr j acc) (maxW j L) := by
  induction L with
  | nil =>
    intro acc j
    cases hacc : lookupStr j acc <;> simp [maxW, omax, hacc]
  | cons p L ih =>
    intro acc j
    obtain ⟨k, w⟩ := p
    rw [List.foldl_cons, ih, updFlag_lookup]
    dsimp only
    by_cases hj : k = j
    · subst hj
      simp only [maxW, if_pos rfl, if_true]
      rw [omax_assoc, omax_some_left]
    · simp [maxW, hj]

theorem foldl_updFlag_nodup (L : List (String × ℤ)) :
    ∀ (acc : List (String × ℤ)), (acc.map Prod.fst).Nodup →
      ((L.foldl updFlag acc).map Prod.fst).Nodup := by
  induction L with
  | nil => intro acc h; exact h
  | cons p L ih =>
    intro acc h
    rw [List.foldl_cons]
    exact ih _ (updFlag_keys_nodup acc p h)

/-! ## Lemmas about substring scanning -/

theorem startsWithL_append (n : List Char) :
    ∀ l m : List Char, startsWithL n l = true →
      startsWithL n (l ++ m) = true := by
  induction n with
  | nil => intro l m _; simp [startsWithL]
  | cons a as ih =>
    intro l m h
    cases l with
    | nil => simp [startsWithL] at h
    | cons b bs =>
      simp only [startsWithL, Bool.and_eq_true, decide_eq_true_eq] at h
      simp only [List.cons_append, startsWithL, Bool.and_eq_true,
        decide_eq_true_eq]
      exact ⟨h.1, ih bs m h.2⟩

theorem containsSub_nil_left (m : List Char) : containsSub [] m = true := by
  cases m with
  | nil => rfl
  | cons c cs => simp [containsSub, startsWithL]

theorem containsSub_append (n : List Char) :
    ∀ l m : List Char, containsSub n l = true →
      containsSub n (l ++ m) = true := by
  intro l
  induction l with
  | nil =>
    intro m h
    have hn : n = [] := by
      simpa [containsSub, List.isEmpty_iff] using h
    subst hn
    simpa using containsSub_nil_left m
  | cons c cs ih =>
    intro m h
    simp only [containsSub, Bool.or_eq_true] at h
    simp only [List.cons_append, containsSub, Bool.or_eq_true]
    rcases h with h | h
    · exact Or.inl (startsWithL_append n (c :: cs) m h)
    · exact Or.inr (ih m h)

theorem sum_filter_mono (tbl : List (String × ℤ))
    (p q : String × ℤ → Bool) (hw : ∀ e ∈ tbl, 0 ≤ e.2)
    (hpq : ∀ e ∈ tbl, p e = true → q e = true) :
    ((tbl.filter p).map Prod.snd).sum ≤
      ((tbl.filter q).map Prod.snd).sum := by
  induction tbl with
  | nil => simp
  | cons e rest ih =>
    have hw' : ∀ x ∈ rest, 0 ≤ x.2 :=
      fun x hx => hw x (List.mem_cons_of_mem _ hx)
    have hpq' : ∀ x ∈ rest, p x = true → q x = true :=
      fun x hx => hpq x (List.mem_cons_of_mem _ hx)
    have ihr := ih hw' hpq'
    by_cases hp : p e = true
    · have hq := hpq e (List.mem_cons_self _ _) hp
      simp only [List.filter_cons, hp, hq, if_pos, List.map_cons,
        List.sum_cons]
      exact add_le_add_left ihr _
    · by_cases hq : q e = true
      · simp only [List.filter_cons, hp, hq]
        simp only [Bool.false_eq_true, if_false, if_pos, List.map_cons,
          List.sum_cons]
        have h0 : 0 ≤ e.2 := hw e (List.mem_cons_self _ _)
        linarith
      · simp only [List.filter_cons, hp, hq]
        simp only [Bool.false_eq_true, if_false]
        exact ihr

/-! ## Range lemmas for the extracted features -/

theorem calculate_readability_mem (w s : List (List Char)) :
    0 ≤ calculate_readability w s ∧ calculate_readability w s ≤ 1 := by
  unfold calculate_readability
  split_ifs with h
  · norm_num
  · exact ⟨le_max_left 0 _, max_le (by norm_num) (min_le_left _ _)⟩

theorem calculate_lexical_diversity_mem (w : List (List Char)) :
    0 ≤ calculate_lexical_diversity w ∧
      calculate_lexical_diversity w ≤ 1 := by
  unfold calculate_lexical_diversity
  split_ifs with h
  · norm_num
  · have hne : w ≠ [] := by simpa [List.isEmpty_iff] using h
    have hlen : (0 : ℚ) < (w.length : ℚ) := by
      exact_mod_cast List.length_pos.mpr hne
    refine ⟨div_nonneg (by positivity) hlen.le, (div_le_one hlen).mpr ?_⟩
    exact_mod_cast (List.dedup_sublist w).length_le

theorem professional_term_frac_mem (t : List Char) :
    0 ≤ professional_term_frac_of t ∧ professional_term_frac_of t ≤ 1 := by
  unfold professional_term_frac_of
  dsimp only
  split_ifs with h
  · norm_num
  · have hne : (splitWs (pyLowerL t)).dedup ≠ [] := by
      simpa [List.isEmpty_iff] using h
    have hlen : (0 : ℚ) < (((splitWs (pyLowerL t)).dedup).length : ℚ) := by
      exact_mod_cast List.length_pos.mpr hne
    refine ⟨div_nonneg (by positivity) hlen.le, (div_le_one hlen).mpr ?_⟩
    exact_mod_cast List.countP_le_length _

theorem countFrac_mem (l : List Char) (p : Char → Bool) :
    0 ≤ (if l.isEmpty then (0 : ℚ)
      else (l.countP p : ℚ) / (l.length : ℚ)) ∧
    (if l.isEmpty then (0 : ℚ)
      else (l.countP p : ℚ) / (l.length : ℚ)) ≤ 1 := by
  split_ifs with h
  · norm_num
  · have hne : l ≠ [] := by simpa [List.isEmpty_iff] using h
    have hlen : (0 : ℚ) < (l.length : ℚ) := by
      exact_mod_cast List.length_pos.mpr hne
    refine ⟨div_nonneg (by positivity) hlen.le, (div_le_one hlen).mpr ?_⟩
    exact_mod_cast List.countP_le_length _

/-- Decidable equality for `Except`, used to state concrete evaluations of
`is_suspicious_domain`. -/
instance instDecEqExcept {ε α : Type} [DecidableEq ε] [DecidableEq α] :
    DecidableEq (Except ε α)
  | .ok a, .ok b =>
    if h : a = b then .isTrue (by rw [h])
    else .isFalse (by simp [h])
  | .error a, .error b =>
    if h : a = b then .isTrue (by rw [h])
    else .isFalse (by simp [h])
  | .ok _, .error _ => .isFalse (by simp)
  | .error _, .ok _ => .isFalse (by simp)

/-- The weight-3 get-rich-quick pattern entry of the lexicon (the 31st
entry of `pattern_flags`). -/
def getRichEntry : RE × ℤ × String :=
  (raltS ["get rich quick", "easy money", "passive income",
    "residual income"],
   3, "Get rich quick scheme")

set_option maxRecDepth 2000000

/-! ## The claims -/

/-- C1: for every scored job posting (any job data, any sentiment oracle,
any domain oracle), the assessment's `final_prediction` is "FAKE JOB" and
`is_fake` is true exactly when the final confidence `combinedScore`
exceeds 0.5, and otherwise the verdict is "GENUINE JOB" with `is_fake`
false. -/
theorem verdict_consistency (da : DomainOracle) (sent : SentimentOracle)
    (jd : JobData) :
    (lookupStr "final_prediction" (analyze_job_data da sent jd) =
        some (PyVal.str "FAKE JOB") ↔ 1/2 < combinedScore sent jd) ∧
    (lookupStr "is_fake" (analyze_job_data da sent jd) =
        some (PyVal.bool true) ↔ 1/2 < combinedScore sent jd) ∧
    (lookupStr "final_prediction" (analyze_job_data da sent jd) =
        some (PyVal.str "GENUINE JOB") ↔ ¬ 1/2 < combinedScore sent jd) ∧
    (lookupStr "is_fake" (analyze_job_data da sent jd) =
        some (PyVal.bool false) ↔ ¬ 1/2 < combinedScore sent jd) := by
  by_cases h : 1/2 < combinedScore sent jd
  · simp [analyze_job_data, lookupStr, h]
  · simp [analyze_job_data, lookupStr, h]

/-- C1 witness: the empty posting scores 0.3 ≤ 0.5, so the verdict is
genuine. -/
theorem verdict_consistency_witness :
    lookupStr "final_prediction"
        (analyze_job_data failingWhois zeroSentiment emptyJobData) =
      some (PyVal.str "GENUINE JOB") :=
  (verdict_consistency failingWhois zeroSentiment
    emptyJobData).2.2.1.mpr (by with_unfolding_all decide)

/-- C2: for every input job posting (including all-empty fields) and every
sentiment oracle, the final confidence lies in [0,1], the numeric quality
score lies in [0,100] before the grade-band lookup, and the ratio-type
features (readability, lexical diversity, professional-term ratio,
uppercase ratio, digit ratio) lie in [0,1]. -/
theorem range_invariants (sent : SentimentOracle) (jd : JobData) :
    (0 ≤ combinedScore sent jd ∧ combinedScore sent jd ≤ 1) ∧
    (0 ≤ jobQualityScore sent jd ∧ jobQualityScore sent jd ≤ 100) ∧
    (0 ≤ (analyzerFeatures sent jd).readability_score ∧
      (analyzerFeatures sent jd).readability_score ≤ 1) ∧
    (0 ≤ (analyzerFeatures sent jd).lexical_diversity ∧
      (analyzerFeatures sent jd).lexical_diversity ≤ 1) ∧
    (0 ≤ (analyzerFeatures sent jd).professional_term_frac ∧
      (analyzerFeatures sent jd).professional_term_frac ≤ 1) ∧
    (0 ≤ (analyzerFeatures sent jd).uppercase_frac ∧
      (analyzerFeatures sent jd).uppercase_frac ≤ 1) ∧
    (0 ≤ (analyzerFeatures sent jd).digit_frac ∧
      (analyzerFeatures sent jd).digit_frac ≤ 1) := by
  refine ⟨⟨le_max_left _ _, max_le (by norm_num) (min_le_right _ _)⟩,
    ⟨le_max_left _ _, max_le (by norm_num) (min_le_left _ _)⟩,
    calculate_readability_mem _ _, calculate_lexical_diversity_mem _,
    professional_term_frac_mem _, countFrac_mem _ _, countFrac_mem _ _⟩

/-- C2 witness: the invariants at a concrete posting. -/
theorem range_invariants_witness :
    0 ≤ combinedScore zeroSentiment emptyJobData ∧
      combinedScore zeroSentiment emptyJobData ≤ 1 :=
  (range_invariants zeroSentiment emptyJobData).1

/-- C3 counterexample: for the posting with empty description and empty
domain, the returned assessment's `red_flags_list` is empty — it does not
contain "vague_description" (that label is produced by the feature
extractor's `extract_red_flags`, which the analyzer overwrites with the
output of `count_red_flags`). -/
theorem empty_description_counterexample :
    lookupStr "red_flags_list"
        (analyze_job_data failingWhois zeroSentiment emptyJobData) =
      some (PyVal.strList []) ∧
    "vague_description" ∉ analyzerRedFlags emptyJobData := by
  with_unfolding_all decide

/-- C3 (amended): analysis of the empty posting completes without raising
(the assessment reports success and a null error); the feature extractor's
`extract_red_flags` does flag "vague_description" for the short
description, but the assessment's `red_flags_list` is built from
`count_red_flags` and is empty. -/
theorem empty_description_flags (da : DomainOracle)
    (sent : SentimentOracle) :
    extract_red_flags "" "" "" = ["vague_description"] ∧
    lookupStr "success" (analyze_job_data da sent emptyJobData) =
      some (PyVal.bool true) ∧
    lookupStr "error" (analyze_job_data da sent emptyJobData) =
      some PyVal.noneV ∧
    lookupStr "red_flags_list" (analyze_job_data da sent emptyJobData) =
      some (PyVal.strList []) := by
  have hrf : analyzerRedFlags emptyJobData = [] := by
    with_unfolding_all decide
  refine ⟨rfl, ?_, ?_, ?_⟩ <;> simp [analyze_job_data, lookupStr, hrf]

/-- C3 witness: the vague-description flag of the extractor at the empty
posting. -/
theorem empty_description_flags_witness :
    extract_red_flags "" "" "" = ["vague_description"] :=
  (empty_description_flags failingWhois zeroSentiment).1

/-- C9: for every input text, the finding map returned by
`count_red_flags` has pairwise-distinct labels, and the weight recorded
under each label is exactly the maximum weight among the raw findings
produced for that label during the scan. -/
theorem findings_dedup_max (text : String) :
    (((count_red_flags text).2).map Prod.fst).Nodup ∧
    ∀ k, lookupStr k (count_red_flags text).2 =
      maxW k (found_flags text) := by
  constructor
  · exact foldl_updFlag_nodup (found_flags text) [] (by simp)
  · intro k
    show lookupStr k (uniqueFlags (found_flags text)) = _
    unfold uniqueFlags
    rw [foldl_updFlag_lookup]
    cases maxW k (found_flags text) <;> rfl

/-- C9 witness: distinct labels on a concrete scan. -/
theorem findings_dedup_max_witness :
    (((count_red_flags "easy money now").2).map Prod.fst).Nodup :=
  (findings_dedup_max "easy money now").1

/-- C10: for every job posting, the domain-analysis `try` block always
fails (the store targets the yet-unbound `result`) and is swallowed, so
the returned assessment has no `domain_analysis` key and is identical for
any two domain oracles — the WHOIS analysis never alters any field. -/
theorem domain_analysis_never_stored (da da' : DomainOracle)
    (sent : SentimentOracle) (jd : JobData) :
    domain_analysis_block da jd = none ∧
    lookupStr "domain_analysis" (analyze_job_data da sent jd) = none ∧
    analyze_job_data da sent jd = analyze_job_data da' sent jd := by
  refine ⟨?_, ?_, rfl⟩
  · unfold domain_analysis_block
    split_ifs with h
    · cases hda : da (jd.company_domain ++ " " ++ jd.description) with
      | ok v => rfl
      | error e => rfl
    · rfl
  · simp [analyze_job_data, lookupStr]

/-- C10 witness: the swallowed block at a concrete posting and oracle. -/
theorem domain_analysis_never_stored_witness :
    domain_analysis_block failingWhois emptyJobData = none :=
  (domain_analysis_never_stored failingWhois failingWhois zeroSentiment
    emptyJobData).1

/-- C4 counterexample: a combined text length of 1500 (> 1000) yields the
0.08 deduction, not the claimed 0.12; two feature vectors differing only in
length 1500 versus 800 receive identical confidences from
`fast_prediction`. -/
theorem length_deduction_counterexample :
    lengthPositive 1500 = 8/100 ∧ lengthPositive 1500 ≠ 12/100 ∧
    fast_prediction (testFeatures 1500) [] =
      fast_prediction (testFeatures 800) [] ∧
    fast_prediction (testFeatures 1500) [] = 7/50 := by
  with_unfolding_all decide

/-- C4 (amended): in the positive-evidence step of `_fast_prediction`, a
combined text length greater than 600 yields the 0.08 deduction — also
beyond 1000, because the `elif > 1000` branch is shadowed and unreachable —
otherwise there is no length deduction; the 0.12 value is never produced
and the two length deductions are never applied together. -/
theorem length_deduction_dead_branch (n : ℕ) :
    (600 < n → lengthPositive n = 8/100) ∧
    (n ≤ 600 → lengthPositive n = 0) ∧
    lengthPositive n ≠ 12/100 := by
  unfold lengthPositive
  refine ⟨fun h => ?_, fun h => ?_, ?_⟩
  · rw [if_pos h]
  · rw [if_neg (not_lt.mpr h),
      if_neg (not_lt.mpr (le_trans h (by norm_num)))]
  · split_ifs with h1 h2
    · norm_num
    · exact absurd (lt_trans (by norm_num) h2) h1
    · norm_num

/-- C4 witness: the amended branch values at 1500 and 500. -/
theorem length_deduction_dead_branch_witness :
    lengthPositive 1500 = 8/100 ∧ lengthPositive 500 = 0 :=
  ⟨(length_deduction_dead_branch 1500).1 (by norm_num),
   (length_deduction_dead_branch 500).2.1 (by norm_num)⟩

/-- C5 counterexample: the text "AAAA" has uppercase ratio 1 > 0.5, yet the
weight-3 "ALL CAPS" finding is absent from the matcher's output (the
`elif > 0.5` branch is shadowed by the `> 0.3` branch). -/
theorem caps_escalation_counterexample :
    1/2 < capsFrac "AAAA".data ∧
    allCapsLabel ∉ ((count_red_flags "AAAA").2).map Prod.fst := by
  with_unfolding_all decide

/-- C5 (amended): the two capitalization thresholds are not independent:
they form an `if`/`elif` chain with `> 0.3` first, so any text whose
uppercase ratio exceeds 0.5 receives only the weight-2 "excessive
capitalization" finding, and the weight-3 "ALL CAPS" branch never fires. -/
theorem caps_threshold_shadowed (text : String)
    (h : 1/2 < capsFrac text.data) :
    capsCheck text.data = [(excessiveCapsLabel, 2)] ∧
    (excessiveCapsLabel, (2 : ℤ)) ∈ found_flags text := by
  have h3 : (3 : ℚ)/10 < capsFrac text.data := lt_trans (by norm_num) h
  have hc : capsCheck text.data = [(excessiveCapsLabel, 2)] := by
    unfold capsCheck
    rw [if_pos h3]
  refine ⟨hc, ?_⟩
  have hmem : (excessiveCapsLabel, (2 : ℤ)) ∈ capsCheck text.data := by
    rw [hc]
    exact List.mem_singleton.mpr rfl
  unfold found_flags
  simp only [List.mem_append]
  tauto

/-- C5 witness: the amended behaviour at the text "AAAA". -/
theorem caps_threshold_shadowed_witness :
    capsCheck "AAAA".data = [(excessiveCapsLabel, 2)] :=
  (caps_threshold_shadowed "AAAA" (by with_unfolding_all decide)).1

/-- C6 counterexample: on "easy money now" the weight-3 get-rich-quick
pattern matches once with the urgency multiplier 1.3 active; the matcher
records weight `int(3.9) = 3`, whereas the claimed `round` would give 4. -/
theorem pattern_weight_rounding_counterexample :
    lookupStr "Get rich quick scheme"
        (count_red_flags "easy money now").2 = some 3 ∧
    urgencyWordPresent (cleanOf (pyLowerL "easy money now".data)) = true ∧
    reCount (raltS ["get rich quick", "easy money", "passive income",
      "residual income"]) (pyLowerL "easy money now".data) = 1 ∧
    pyInt ((3 : ℚ) * patMultiplier 1 true) = 3 ∧
    pyRound ((3 : ℚ) * patMultiplier 1 true) = 4 := by
  with_unfolding_all decide

/-- C6 (amended): every pattern-tier entry that matches the lowercased
text contributes the finding whose weight is the *truncation* (not the
rounding) of weight × multiplier, where the multiplier is 1.0, becomes 1.5
when the pattern matches more than once, and is further multiplied by 1.3
when an urgency word occurs in the punctuation-stripped text. -/
theorem pattern_weight_truncation (text : String) (e : RE × ℤ × String)
    (he : e ∈ pattern_flags)
    (hm : 0 < reCount e.1 (pyLowerL text.data)) :
    (e.2.2, pyInt ((e.2.1 : ℚ) *
      patMultiplier (reCount e.1 (pyLowerL text.data))
        (urgencyWordPresent (cleanOf (pyLowerL text.data))))) ∈
      found_flags text := by
  have hp : (e.2.2, pyInt ((e.2.1 : ℚ) *
      patMultiplier (reCount e.1 (pyLowerL text.data))
        (urgencyWordPresent (cleanOf (pyLowerL text.data))))) ∈
      patScan (pyLowerL text.data) (cleanOf (pyLowerL text.data)) := by
    unfold patScan concatMapL
    rw [List.mem_flatten]
    refine ⟨patScanEntry (pyLowerL text.data)
      (cleanOf (pyLowerL text.data)) e, List.mem_map_of_mem _ he, ?_⟩
    unfold patScanEntry
    rw [if_neg (Nat.pos_iff_ne_zero.mp hm)]
    exact List.mem_singleton.mpr rfl
  unfold found_flags
  simp only [List.mem_append]
  tauto

/-- C6 witness: the truncated weight of the get-rich-quick entry on
"easy money now". -/
theorem pattern_weight_truncation_witness :
    ("Get rich quick scheme", (3 : ℤ)) ∈ found_flags "easy money now" := by
  have he : getRichEntry ∈ pattern_flags := by
    unfold pattern_flags
    iterate 30 apply List.mem_cons_of_mem
    exact List.mem_cons_self _ _
  have h := pattern_weight_truncation "easy money now" getRichEntry he
    (by with_unfolding_all decide)
  have hval : (getRichEntry.2.2,
      pyInt ((getRichEntry.2.1 : ℚ) *
        patMultiplier
          (reCount getRichEntry.1 (pyLowerL "easy money now".data))
          (urgencyWordPresent
            (cleanOf (pyLowerL "easy money now".data))))) =
      ("Get rich quick scheme", (3 : ℤ)) := by
    with_unfolding_all decide
  exact hval ▸ h

/-- C7 counterexample: appending a second occurrence of the critical-tier
phrase "registration fee" lowers the total score from 9 to 7 (the added
lowercase text drops the capitalization ratio below the 0.3 heuristic
threshold). -/
theorem critical_phrase_monotonicity_counterexample :
    ("registration fee", (4 : ℤ)) ∈ critical_flags ∧
    (count_red_flags
        ("AAAA AAAA registration fee" ++ " registration fee")).1 <
      (count_red_flags "AAAA AAAA registration fee").1 := by
  with_unfolding_all decide

/-- C7 (amended): appending text — in particular another occurrence of a
critical-tier phrase — never decreases the lexicon (literal-tier) portion
of the score; the full `count_red_flags` total can still decrease because
the heuristic add-ons (capitalization ratio, densities) depend on the
whole text. -/
theorem literal_tier_monotone (t u : String) :
    literal_tier_score t ≤ literal_tier_score (t ++ u) := by
  have hL : pyLowerL (t ++ u).data = pyLowerL t.data ++ pyLowerL u.data := by
    simp [pyLowerL, String.data_append]
  unfold literal_tier_score litScan
  rw [hL]
  simp only [List.map_append, List.sum_append]
  have hmono : ∀ tbl : List (String × ℤ), (∀ e ∈ tbl, 0 ≤ e.2) →
      ((tbl.filter
        (fun e => containsSub e.1.data (pyLowerL t.data))).map
          Prod.snd).sum ≤
      ((tbl.filter
        (fun e => containsSub e.1.data
          (pyLowerL t.data ++ pyLowerL u.data))).map Prod.snd).sum :=
    fun tbl hw => sum_filter_mono tbl _ _ hw
      (fun e _ hp => containsSub_append _ _ _ hp)
  have h1 := hmono critical_flags (by decide)
  have h2 := hmono high_risk_flags (by decide)
  have h3 := hmono medium_risk_flags (by decide)
  exact add_le_add (add_le_add h1 h2) h3

/-- C7 witness: monotonicity of the literal tier at a concrete pair. -/
theorem literal_tier_monotone_witness :
    literal_tier_score "AAAA" ≤ literal_tier_score ("AAAA" ++ " bitcoin") :=
  literal_tier_monotone "AAAA" " bitcoin"

/-- C8 counterexample: for "gooogle-jobs.tk" the reason string is
"Suspicious TLD: .tk"; it does not reference the lookalike brand, contrary
to the claim that the reason references both checks. -/
theorem lookalike_tld_reason_counterexample :
    is_suspicious_domain "gooogle-jobs.tk" =
      .ok (true, "Suspicious TLD: .tk") ∧
    pyInStr "gooogle" "Suspicious TLD: .tk" = false ∧
    pyInStr "google" "Suspicious TLD: .tk" = false := by
  with_unfolding_all decide

/-- C8 (amended): "gooogle-jobs.tk" is reported suspicious with the reason
supplied by the first matching check in priority order (the suspicious
TLD); the lookalike-brand check is detectable independently — the same
name under a neutral TLD is flagged as impersonating google. -/
theorem lookalike_tld_detection :
    is_suspicious_domain "gooogle-jobs.tk" =
      .ok (true, "Suspicious TLD: .tk") ∧
    is_suspicious_domain "gooogle-jobs.com" =
      .ok (true,
        "Possible lookalike domain (fake gooogle, real google)") := by
  with_unfolding_all decide
